import Mathlib

/-!
# Verification of the HR Copilot pipeline (gemini-soumyagit/hr-co-pilot)

Shallow embedding of the serverless HR copilot function found in
`src/main.js` (two related variants: the primary handler and the enhanced
`appwriteFunction` variant with an in-memory ticket system).  External
services (Pinecone, the LlamaIndex query engine, the Gemini chat model)
are modelled as explicit outcome parameters of type `Except`/`Option`
threaded into the embedded pipeline; everything the repository itself
computes is translated directly from the JavaScript source.
-/

namespace HRCopilot

/-! ## String primitives

`String.prototype.toLowerCase` is modelled per character (the keyword
matching in the source only involves ASCII keywords, and `Char.toLower`
agrees with JavaScript on ASCII).  `String.prototype.includes` is the
contiguous-substring test, modelled on the character list. -/

/-- Per-character lowercasing, modelling `query.toLowerCase()` on ASCII. -/
def jsToLowerCase (s : String) : String :=
  String.mk (s.toList.map Char.toLower)

/-- `sub` occurs as a contiguous sublist of `l`
(the list form of `l.includes(sub)` in JavaScript). -/
def includesList (sub : List Char) : List Char → Bool
  | [] => sub.isEmpty
  | c :: t => sub.isPrefixOf (c :: t) || includesList sub t

/-- `s.includes(sub)` from JavaScript. -/
def includesStr (s sub : String) : Bool :=
  includesList sub.toList s.toList

/-- Case-insensitive keyword containment, exactly as the classifier tests it:
lowercase the query, then check for the (lowercase) keyword as a substring. -/
def containsKeyword (q k : String) : Bool :=
  includesStr (jsToLowerCase q) k

/-- JavaScript `v || fallback` on an optional string: `undefined` and the
empty string are falsy, so both select the fallback. -/
def jsStringOr (v : Option String) (fallback : String) : String :=
  match v with
  | none => fallback
  | some s => if s = "" then fallback else s

/-! ## Classifier (`HRInputProcessingTool._call`)

The primary variant of `main.js` has four keyword rules (POLICY, LEAVE,
COMPENSATION, TRAINING); the simplified variants (second document of
`main.js`, `unnamed/part_000`) omit the TRAINING rule. -/

/-- `HRInputProcessingTool._call` from the primary variant of `src/main.js`
(lines 46-59): nested if/else over case-insensitive substring tests. -/
def classifyQuery (query : String) : String :=
  let lowercaseInput := jsToLowerCase query
  if includesStr lowercaseInput "policy" || includesStr lowercaseInput "handbook" then
    "POLICY"
  else if includesStr lowercaseInput "leave" || includesStr lowercaseInput "vacation" then
    "LEAVE"
  else if includesStr lowercaseInput "salary" || includesStr lowercaseInput "compensation" then
    "COMPENSATION"
  else if includesStr lowercaseInput "training" || includesStr lowercaseInput "development" then
    "TRAINING"
  else
    "GENERAL"

/-- `HRInputProcessingTool._call` from the simplified variants
(`unnamed/part_000` lines 58-69, second document of `main.js`): same rules
but without the TRAINING branch. -/
def classifyQuerySimplified (query : String) : String :=
  let lowercaseInput := jsToLowerCase query
  if includesStr lowercaseInput "policy" || includesStr lowercaseInput "handbook" then
    "POLICY"
  else if includesStr lowercaseInput "leave" || includesStr lowercaseInput "vacation" then
    "LEAVE"
  else if includesStr lowercaseInput "salary" || includesStr lowercaseInput "compensation" then
    "COMPENSATION"
  else
    "GENERAL"

/-! ## Retrievers

Each retriever wraps one external lookup.  The lookup outcome is passed in
explicitly: for Pinecone the payload is the optional
`queryResponse.matches[0]?.metadata?.text`, for LlamaIndex it is the text
the query engine's response renders to.  A `.error` outcome stands for any
exception thrown inside the `try` block. -/

/-- `PineconeQueryTool._call` (`src/main.js` lines 75-90): a thrown error is
caught and converted to the fixed error sentinel; on success the optional
match text goes through JavaScript `||`, so a missing or empty text yields
the not-found sentinel. -/
def pineconeRetrieve (outcome : Except Unit (Option String)) : String :=
  match outcome with
  | Except.error _ => "Error retrieving information from Pinecone"
  | Except.ok v => jsStringOr v "No relevant information found."

/-- `LlamaIndexTool._call` (`src/main.js` lines 132-144, and lines 424-434 of
the enhanced variant): a thrown error is caught and converted to the fixed
error sentinel; on success the response text is returned unchanged. -/
def llamaRetrieve (outcome : Except Unit String) : String :=
  match outcome with
  | Except.error _ => "Error retrieving information from LlamaIndex"
  | Except.ok r => r

/-! ## Pipeline state

The `StateGraph` channels (`src/main.js` lines 167-184).  Channels that no
node has written yet are `undefined` in JavaScript; they are modelled as
`Option` fields holding `none`. -/

/-- One entry of `conversation_history`. -/
structure Message where
  role : String
  content : String
deriving DecidableEq, Repr

/-- The caller-supplied `employee_context` object. -/
structure EmployeeContext where
  department : String
  role : String
  tenure : String
deriving DecidableEq, Repr

/-- The accumulated graph state threaded through the pipeline nodes. -/
structure PipelineState where
  query : Option String
  category : Option String
  pinecone_result : Option String
  llamaindex_result : Option String
  employee_context : Option EmployeeContext
  conversation_history : List Message
  final_response : Option String
deriving DecidableEq, Repr

/-! ## Pipeline nodes

Each node consumes the state and returns a partial update merged into it;
a node that throws aborts the run (modelled by `Except.error` carrying the
JavaScript error message). -/

/-- `fetch_employee_context` node of the primary variant (`src/main.js`
lines 188-192): returns the context unchanged. -/
def employeeContextNode (s : PipelineState) : Except String PipelineState :=
  Except.ok { s with employee_context := s.employee_context }

/-- `fetch_employee_context` node of the enhanced variant (`src/main.js`
lines 519-527): rebuilds `{department, role, tenure}` from the stored
context; reading `.department` of an absent context throws a TypeError. -/
def employeeContextNodeEnhanced (s : PipelineState) : Except String PipelineState :=
  match s.employee_context with
  | none => Except.error "TypeError: employee_context is undefined"
  | some ctx =>
    Except.ok { s with employee_context := some ⟨ctx.department, ctx.role, ctx.tenure⟩ }

/-- `categorize` node (`src/main.js` lines 195-199): calls the classifier
tool on `state.query`; `query.toLowerCase()` throws when the query is
absent (`undefined`). -/
def categorizeNode (s : PipelineState) : Except String PipelineState :=
  match s.query with
  | none => Except.error "TypeError: query is undefined"
  | some q => Except.ok { s with category := some (classifyQuery q) }

/-- `categorize` node of the enhanced variant (`src/main.js` lines 530-535),
which uses the simplified classifier (no TRAINING rule). -/
def categorizeNodeSimplified (s : PipelineState) : Except String PipelineState :=
  match s.query with
  | none => Except.error "TypeError: query is undefined"
  | some q => Except.ok { s with category := some (classifyQuerySimplified q) }

/-- `pinecone_query` node (`src/main.js` lines 202-206): stores the
retriever's string result; the retriever itself never throws. -/
def pineconeQueryNode (pc : Except Unit (Option String)) (s : PipelineState) :
    Except String PipelineState :=
  Except.ok { s with pinecone_result := some (pineconeRetrieve pc) }

/-- `llamaindex_query` node (`src/main.js` lines 209-213): stores the
retriever's string result; the retriever itself never throws. -/
def llamaindexQueryNode (ll : Except Unit String) (s : PipelineState) :
    Except String PipelineState :=
  Except.ok { s with llamaindex_result := some (llamaRetrieve ll) }

/-- `respond` node (`src/main.js` lines 216-242): invokes the prompt/model
chain on the whole state; a backend failure propagates, success stores the
model text as `final_response`. -/
def respondNode (model : PipelineState → Except String String) (s : PipelineState) :
    Except String PipelineState :=
  match model s with
  | Except.error e => Except.error e
  | Except.ok r => Except.ok { s with final_response := some r }

/-- The pure append performed by `update_conversation_history`
(`src/main.js` lines 245-252). -/
def updateConversationHistory (h : List Message) (q r : String) : List Message :=
  h ++ [⟨"user", q⟩, ⟨"assistant", r⟩]

/-- `update_conversation_history` node: appends the user query and the
assistant response.  When the node runs, `query` and `final_response` are
always set by earlier nodes; `getD ""` covers the unreachable unset case. -/
def conversationHistoryNode (s : PipelineState) : Except String PipelineState :=
  Except.ok { s with conversation_history :=
    updateConversationHistory s.conversation_history (s.query.getD "") (s.final_response.getD "") }

/-! ## Pipeline driver

The compiled `StateGraph` runs the nodes in the fixed edge order
(`src/main.js` lines 255-261); the driver below executes a named node list
sequentially, recording the name of every node that starts, and stops at
the first node that throws. -/

/-- Sequential node execution: returns the names of the nodes that started
and either the final state or the first error. -/
def runNodes :
    List (String × (PipelineState → Except String PipelineState)) → PipelineState →
    List String × Except String PipelineState
  | [], s => ([], Except.ok s)
  | (n, f) :: rest, s =>
    match f s with
    | Except.error e => ([n], Except.error e)
    | Except.ok s' =>
      let p := runNodes rest s'
      (n :: p.1, p.2)

/-- Node list of the primary variant, in its edge order. -/
def hrCopilotNodes (pc : Except Unit (Option String)) (ll : Except Unit String)
    (model : PipelineState → Except String String) :
    List (String × (PipelineState → Except String PipelineState)) :=
  [("fetch_employee_context", employeeContextNode),
   ("categorize", categorizeNode),
   ("pinecone_query", pineconeQueryNode pc),
   ("llamaindex_query", llamaindexQueryNode ll),
   ("respond", respondNode model),
   ("update_conversation_history", conversationHistoryNode)]

/-- Node list of the enhanced `appwriteFunction` variant, in its edge order
(`src/main.js` lines 592-599). -/
def enhancedNodes (pc : Except Unit (Option String)) (ll : Except Unit String)
    (model : PipelineState → Except String String) :
    List (String × (PipelineState → Except String PipelineState)) :=
  [("fetch_employee_context", employeeContextNodeEnhanced),
   ("categorize", categorizeNodeSimplified),
   ("pinecone_query", pineconeQueryNode pc),
   ("llamaindex_query", llamaindexQueryNode ll),
   ("respond", respondNode model),
   ("update_conversation_history", conversationHistoryNode)]

/-- The state the `respond` node receives in the primary pipeline: the
first four nodes have filled `category` and both retrieval results. -/
def stateBeforeRespond (pc : Except Unit (Option String)) (ll : Except Unit String)
    (s0 : PipelineState) : PipelineState :=
  { s0 with
    category := s0.query.map classifyQuery,
    pinecone_result := some (pineconeRetrieve pc),
    llamaindex_result := some (llamaRetrieve ll) }

/-- The state the `respond` node receives in the enhanced pipeline. -/
def stateBeforeRespondEnhanced (pc : Except Unit (Option String)) (ll : Except Unit String)
    (s0 : PipelineState) : PipelineState :=
  { s0 with
    category := s0.query.map classifyQuerySimplified,
    pinecone_result := some (pineconeRetrieve pc),
    llamaindex_result := some (llamaRetrieve ll) }

/-- The ordered retrieval results held by a state: one entry per configured
retriever, Pinecone first, LlamaIndex second. -/
def retrievedResults (s : PipelineState) : List (String × Option String) :=
  [("pinecone_result", s.pinecone_result), ("llamaindex_result", s.llamaindex_result)]

/-! ## Ticket management system

`TicketManagementSystem` (`src/main.js` lines 460-481) keeps tickets in a
JavaScript `Map`; the map is modelled as an association list with
`Map.set`/`Map.get` semantics (replace in place on an existing key,
append otherwise).  `Date.now()` is an explicit `now` parameter. -/

/-- One timestamped ticket update (pushed by `updateTicket`). -/
structure TicketUpdate where
  timestamp : Nat
  content : String
deriving DecidableEq, Repr

/-- A stored ticket. -/
structure Ticket where
  id : String
  description : String
  status : String
  priority : String
  updates : List TicketUpdate
deriving DecidableEq, Repr

/-- JavaScript `Map.prototype.set`: replace the value of an existing key in
place, otherwise append the new binding. -/
def mapSet : List (String × Ticket) → String → Ticket → List (String × Ticket)
  | [], k, v => [(k, v)]
  | (k', v') :: rest, k, v =>
    if k' = k then (k, v) :: rest else (k', v') :: mapSet rest k v

/-- JavaScript `Map.prototype.get` (`undefined` becomes `none`). -/
def mapGet : List (String × Ticket) → String → Option Ticket
  | [], _ => none
  | (k', v) :: rest, k => if k' = k then some v else mapGet rest k

/-- The `tickets` map of a `TicketManagementSystem` instance. -/
structure TicketSystem where
  tickets : List (String × Ticket)
deriving DecidableEq, Repr

/-- `createTicket(description, priority = 'medium')`: stores a fresh ticket
with status `open` and no updates under ``TICKET-${Date.now()}`` and
returns that id. -/
def createTicket (ts : TicketSystem) (now : Nat) (description priority : String) :
    String × TicketSystem :=
  let id := "TICKET-" ++ toString now
  (id, ⟨mapSet ts.tickets id ⟨id, description, "open", priority, []⟩⟩)

/-- `updateTicket(id, update)`: pushes a timestamped update onto an existing
ticket and does nothing for an unknown id. -/
def updateTicket (ts : TicketSystem) (now : Nat) (id content : String) : TicketSystem :=
  match mapGet ts.tickets id with
  | none => ts
  | some t =>
    ⟨mapSet ts.tickets id { t with updates := t.updates ++ [⟨now, content⟩] }⟩

/-- `getTicketStatus(id)`: `this.tickets.get(id)?.status || 'not found'`. -/
def getTicketStatus (ts : TicketSystem) (id : String) : String :=
  jsStringOr ((mapGet ts.tickets id).map Ticket.status) "not found"

/-- The escalation marker test of `appwriteFunction` (`src/main.js` line
635): `result.final_response.toLowerCase().includes("contact hr")`. -/
def escalationMarkerPresent (finalResponse : String) : Bool :=
  includesStr (jsToLowerCase finalResponse) "contact hr"

/-! ## Request handlers -/

/-- The primary handler's incoming request: HTTP method plus the
destructured `req.body` fields (`query` may be missing). -/
structure Request where
  method : String
  query : Option String
  employee_context : Option EmployeeContext
  conversation_history : List Message
deriving DecidableEq, Repr

/-- The JSON object returned by the primary handler.  `Option` fields model
keys that may be absent from the object literal; the primary handler never
emits `conversation_history`, `pinecone_result`, `llamaindex_result` or
`ticketId`, so it always leaves them `none`. -/
structure JsonResponse where
  status : Nat
  message : Option String
  final_response : Option String
  category : Option String
  error : Option String
  conversation_history : Option (List Message)
  pinecone_result : Option String
  llamaindex_result : Option String
  ticketId : Option String
deriving DecidableEq, Repr

/-- The primary `export default` handler (`src/main.js` lines 274-307):
reject non-POST with 405, otherwise run the pipeline on the body fields and
return 200 with `final_response`/`category`, or 500 with the error message
if anything thrown escaped the pipeline. -/
def handler (pc : Except Unit (Option String)) (ll : Except Unit String)
    (model : PipelineState → Except String String) (req : Request) :
    List String × JsonResponse :=
  if req.method ≠ "POST" then
    ([], ⟨405, some "Method Not Allowed", none, none, none, none, none, none, none⟩)
  else
    match runNodes (hrCopilotNodes pc ll model)
        ⟨req.query, none, none, none, req.employee_context, req.conversation_history, none⟩ with
    | (tr, Except.ok sf) =>
      (tr, ⟨200, some "Success", sf.final_response, sf.category, none, none, none, none, none⟩)
    | (tr, Except.error e) =>
      (tr, ⟨500, some "Internal Server Error", none, none, some e, none, none, none, none⟩)

/-- The parsed `req.payload` of the enhanced `appwriteFunction`. -/
structure AppwritePayload where
  query : Option String
  employeeContext : Option EmployeeContext
deriving DecidableEq, Repr

/-- The JSON object returned by `appwriteFunction` (`src/main.js` lines
641-655).  `Option` fields model keys that may be absent (`ticketId` is
absent when no ticket was created; the error branch emits only `error` and
`details`). -/
structure AppwriteResponse where
  status : Nat
  result : Option String
  category : Option String
  pinecone_result : Option String
  llamaindex_result : Option String
  employee_context : Option EmployeeContext
  conversation_history : Option (List Message)
  ticketId : Option String
  error : Option String
  details : Option String
deriving DecidableEq, Repr

/-- Everything observable about one `appwriteFunction` invocation: the node
trace, the HTTP response, and the final state of the per-invocation ticket
system. -/
structure AppwriteOutcome where
  trace : List String
  response : AppwriteResponse
  ticketSystem : TicketSystem
deriving DecidableEq, Repr

/-- The enhanced `appwriteFunction` handler (`src/main.js` lines 605-657):
invokes the enhanced pipeline with `conversation_history: []`, then — as
post-processing — creates a high-priority escalation ticket when
`final_response` mentions "contact hr" (case-insensitively) and attaches
its id to the result; any error is caught and returned as a 500 body.
JavaScript renders an absent `query` as the string `"undefined"` inside the
ticket-description template literal. -/
def appwriteFunction (pc : Except Unit (Option String)) (ll : Except Unit String)
    (model : PipelineState → Except String String) (now : Nat)
    (payload : AppwritePayload) : AppwriteOutcome :=
  let ts : TicketSystem := ⟨[]⟩
  match runNodes (enhancedNodes pc ll model)
      ⟨payload.query, none, none, none, payload.employeeContext, [], none⟩ with
  | (tr, Except.error e) =>
    ⟨tr, ⟨500, none, none, none, none, none, none, none,
      some "An error occurred while processing your request.", some e⟩, ts⟩
  | (tr, Except.ok sf) =>
    if escalationMarkerPresent (sf.final_response.getD "") then
      let created := createTicket ts now
        ("Query requires human assistance: " ++ payload.query.getD "undefined") "high"
      ⟨tr, ⟨200, sf.final_response, sf.category, sf.pinecone_result, sf.llamaindex_result,
        sf.employee_context, some sf.conversation_history, some created.1, none, none⟩,
        created.2⟩
    else
      ⟨tr, ⟨200, sf.final_response, sf.category, sf.pinecone_result, sf.llamaindex_result,
        sf.employee_context, some sf.conversation_history, none, none, none⟩, ts⟩

/-! ## Helper lemmas -/

/-- Unfolding the primary pipeline on a state whose `query` is present:
the first four nodes always complete, `respond` decides the outcome, and a
successful run ends with the two history entries appended. -/
theorem runNodes_hrCopilot (pc : Except Unit (Option String)) (ll : Except Unit String)
    (model : PipelineState → Except String String) (s0 : PipelineState) (q : String)
    (hq : s0.query = some q) :
    runNodes (hrCopilotNodes pc ll model) s0 =
      match model (stateBeforeRespond pc ll s0) with
      | Except.error e =>
        (["fetch_employee_context", "categorize", "pinecone_query", "llamaindex_query",
          "respond"], Except.error e)
      | Except.ok r =>
        (["fetch_employee_context", "categorize", "pinecone_query", "llamaindex_query",
          "respond", "update_conversation_history"],
          Except.ok { s0 with
            category := some (classifyQuery q),
            pinecone_result := some (pineconeRetrieve pc),
            llamaindex_result := some (llamaRetrieve ll),
            final_response := some r,
            conversation_history := updateConversationHistory s0.conversation_history q r }) := by
  obtain ⟨oq, cat, pr, lr, ec, ch, fr⟩ := s0
  simp only [PipelineState.mk.injEq] at hq
  subst hq
  simp only [runNodes, hrCopilotNodes, employeeContextNode, categorizeNode,
    pineconeQueryNode, llamaindexQueryNode, respondNode, conversationHistoryNode,
    stateBeforeRespond, Option.map_some', Option.getD_some]
  cases model ⟨some q, some (classifyQuery q), some (pineconeRetrieve pc),
      some (llamaRetrieve ll), ec, ch, fr⟩ with
  | error e => rfl
  | ok r => rfl

/-- Unfolding the enhanced pipeline on a state whose `query` and
`employee_context` are present. -/
theorem runNodes_enhanced (pc : Except Unit (Option String)) (ll : Except Unit String)
    (model : PipelineState → Except String String) (s0 : PipelineState) (q : String)
    (ctx : EmployeeContext) (hq : s0.query = some q)
    (hctx : s0.employee_context = some ctx) :
    runNodes (enhancedNodes pc ll model) s0 =
      match model (stateBeforeRespondEnhanced pc ll s0) with
      | Except.error e =>
        (["fetch_employee_context", "categorize", "pinecone_query", "llamaindex_query",
          "respond"], Except.error e)
      | Except.ok r =>
        (["fetch_employee_context", "categorize", "pinecone_query", "llamaindex_query",
          "respond", "update_conversation_history"],
          Except.ok { s0 with
            category := some (classifyQuerySimplified q),
            pinecone_result := some (pineconeRetrieve pc),
            llamaindex_result := some (llamaRetrieve ll),
            final_response := some r,
            conversation_history := updateConversationHistory s0.conversation_history q r }) := by
  obtain ⟨oq, cat, pr, lr, ec, ch, fr⟩ := s0
  simp only [PipelineState.mk.injEq] at hq hctx
  subst hq
  subst hctx
  simp only [runNodes, enhancedNodes, employeeContextNodeEnhanced, categorizeNodeSimplified,
    pineconeQueryNode, llamaindexQueryNode, respondNode, conversationHistoryNode,
    stateBeforeRespondEnhanced, Option.map_some', Option.getD_some]
  rw [show (⟨ctx.department, ctx.role, ctx.tenure⟩ : EmployeeContext) = ctx from rfl]
  cases model ⟨some q, some (classifyQuerySimplified q), some (pineconeRetrieve pc),
      some (llamaRetrieve ll), some ctx, ch, fr⟩ with
  | error e => rfl
  | ok r => rfl

/-- Every character of a matched substring occurs in the searched list. -/
theorem mem_of_includesList {sub l : List Char} (h : includesList sub l = true) :
    ∀ c ∈ sub, c ∈ l := by
  induction l with
  | nil =>
    simp only [includesList, List.isEmpty_iff] at h
    subst h
    intro c hc
    cases hc
  | cons a t ih =>
    simp only [includesList, Bool.or_eq_true] at h
    intro c hc
    cases h with
    | inl hp => exact (List.isPrefixOf_iff_prefix.mp hp).subset hc
    | inr ht => exact List.mem_cons_of_mem a (ih ht c hc)

/-- Lowercasing fixes whitespace characters. -/
theorem toLower_of_whitespace {c : Char} (h : c.isWhitespace = true) :
    c.toLower = c := by
  simp only [Char.isWhitespace, Bool.or_eq_true, decide_eq_true_eq] at h
  rcases h with ((h | h) | h) | h <;> subst h <;> decide

/-- A query made only of whitespace contains no keyword that has a
non-whitespace character. -/
theorem containsKeyword_eq_false_of_whitespace {q k : String} {c : Char}
    (hck : c ∈ k.toList) (hcw : c.isWhitespace = false)
    (hw : q.toList.all Char.isWhitespace = true) :
    containsKeyword q k = false := by
  by_contra hne
  rw [Bool.not_eq_false] at hne
  have hmem : c ∈ (jsToLowerCase q).toList :=
    mem_of_includesList hne c hck
  have : c.isWhitespace = true := by
    simp only [jsToLowerCase, String.toList, List.mem_map] at hmem
    obtain ⟨c', hc', rfl⟩ := hmem
    have hw' : c'.isWhitespace = true := by
      rw [List.all_eq_true] at hw
      exact hw c' hc'
    rw [toLower_of_whitespace hw']
    exact hw'
  rw [this] at hcw
  cases hcw

/-- `Map.get` after `Map.set` on the same key finds the new value. -/
theorem mapGet_mapSet_self (l : List (String × Ticket)) (k : String) (v : Ticket) :
    mapGet (mapSet l k v) k = some v := by
  induction l with
  | nil => simp [mapSet, mapGet]
  | cons p rest ih =>
    obtain ⟨k', v'⟩ := p
    by_cases hk : k' = k
    · subst hk
      simp [mapSet, mapGet]
    · simp [mapSet, mapGet, hk, ih]

/-- `Map.get` after `Map.set` on a different key is unchanged. -/
theorem mapGet_mapSet_ne (l : List (String × Ticket)) (k k' : String) (v : Ticket)
    (h : k' ≠ k) : mapGet (mapSet l k v) k' = mapGet l k' := by
  induction l with
  | nil => simp [mapSet, mapGet, Ne.symm h]
  | cons p rest ih =>
    obtain ⟨k0, v0⟩ := p
    by_cases hk : k0 = k
    · subst hk
      simp [mapSet, mapGet, Ne.symm h]
    · simp [mapSet, mapGet, hk, ih]

/-! ## Claim theorems -/

/-- C1: `classify` maps every query to exactly one category of the closed
set POLICY / LEAVE / COMPENSATION / TRAINING / GENERAL, by case-insensitive
substring matching with first-match-wins precedence in the fixed order
POLICY, LEAVE, COMPENSATION, TRAINING; a query containing no keyword —
including the empty and the all-whitespace query — yields GENERAL. -/
theorem hr_input_processing_classifier (q : String) :
    (classifyQuery q = "POLICY" ∨ classifyQuery q = "LEAVE" ∨
      classifyQuery q = "COMPENSATION" ∨ classifyQuery q = "TRAINING" ∨
      classifyQuery q = "GENERAL")
  ∧ ((containsKeyword q "policy" || containsKeyword q "handbook") = true →
      classifyQuery q = "POLICY")
  ∧ ((containsKeyword q "policy" || containsKeyword q "handbook") = false →
      (containsKeyword q "leave" || containsKeyword q "vacation") = true →
      classifyQuery q = "LEAVE")
  ∧ ((containsKeyword q "policy" || containsKeyword q "handbook") = false →
      (containsKeyword q "leave" || containsKeyword q "vacation") = false →
      (containsKeyword q "salary" || containsKeyword q "compensation") = true →
      classifyQuery q = "COMPENSATION")
  ∧ ((containsKeyword q "policy" || containsKeyword q "handbook") = false →
      (containsKeyword q "leave" || containsKeyword q "vacation") = false →
      (containsKeyword q "salary" || containsKeyword q "compensation") = false →
      (containsKeyword q "training" || containsKeyword q "development") = true →
      classifyQuery q = "TRAINING")
  ∧ ((containsKeyword q "policy" || containsKeyword q "handbook") = false →
      (containsKeyword q "leave" || containsKeyword q "vacation") = false →
      (containsKeyword q "salary" || containsKeyword q "compensation") = false →
      (containsKeyword q "training" || containsKeyword q "development") = false →
      classifyQuery q = "GENERAL")
  ∧ (q.toList.all Char.isWhitespace = true → classifyQuery q = "GENERAL") := by
  refine ⟨?_, ?_, ?_, ?_, ?_, ?_, ?_⟩
  · simp only [classifyQuery]
    split_ifs <;> simp
  · intro h
    simp only [containsKeyword] at h
    simp [classifyQuery, h]
  · intro h1 h2
    simp only [containsKeyword] at h1 h2
    simp [classifyQuery, h1, h2]
  · intro h1 h2 h3
    simp only [containsKeyword] at h1 h2 h3
    simp [classifyQuery, h1, h2, h3]
  · intro h1 h2 h3 h4
    simp only [containsKeyword] at h1 h2 h3 h4
    simp [classifyQuery, h1, h2, h3, h4]
  · intro h1 h2 h3 h4
    simp only [containsKeyword] at h1 h2 h3 h4
    simp [classifyQuery, h1, h2, h3, h4]
  · intro hw
    have h1 := containsKeyword_eq_false_of_whitespace (q := q) (k := "policy")
      (c := 'p') (by decide) (by decide) hw
    have h2 := containsKeyword_eq_false_of_whitespace (q := q) (k := "handbook")
      (c := 'h') (by decide) (by decide) hw
    have h3 := containsKeyword_eq_false_of_whitespace (q := q) (k := "leave")
      (c := 'l') (by decide) (by decide) hw
    have h4 := containsKeyword_eq_false_of_whitespace (q := q) (k := "vacation")
      (c := 'v') (by decide) (by decide) hw
    have h5 := containsKeyword_eq_false_of_whitespace (q := q) (k := "salary")
      (c := 's') (by decide) (by decide) hw
    have h6 := containsKeyword_eq_false_of_whitespace (q := q) (k := "compensation")
      (c := 'c') (by decide) (by decide) hw
    have h7 := containsKeyword_eq_false_of_whitespace (q := q) (k := "training")
      (c := 't') (by decide) (by decide) hw
    have h8 := containsKeyword_eq_false_of_whitespace (q := q) (k := "development")
      (c := 'd') (by decide) (by decide) hw
    simp only [containsKeyword] at h1 h2 h3 h4 h5 h6 h7 h8
    simp [classifyQuery, h1, h2, h3, h4, h5, h6, h7, h8]

/-- C1 witness: a concrete query containing both a POLICY and a LEAVE
keyword resolves to POLICY (first rule wins). -/
theorem hr_input_processing_classifier_witness :
    classifyQuery "Does the Handbook cover leave?" = "POLICY" :=
  (hr_input_processing_classifier "Does the Handbook cover leave?").2.1 (by decide)

/-- C2 counterexample: the LlamaIndex retriever does not return the
"no relevant information found" sentinel when the lookup succeeds with an
empty result — it returns the empty response text unchanged. -/
theorem llamaindex_no_result_counterexample :
    llamaRetrieve (Except.ok "") = "" ∧
      llamaRetrieve (Except.ok "") ≠ "No relevant information found." := by
  refine ⟨rfl, ?_⟩
  decide

/-- C2 (amended): every retriever converts any underlying failure into its
fixed "retrieval error" sentinel instead of raising past its boundary, so
the pipeline still reaches the synthesis step for every lookup outcome; the
Pinecone retriever additionally returns the fixed "no relevant information
found" sentinel when its lookup succeeds with a missing or empty result,
while the LlamaIndex retriever returns the engine's response text
unchanged on success. -/
theorem retriever_sentinel_spec (pc : Except Unit (Option String))
    (ll : Except Unit String) (model : PipelineState → Except String String)
    (s0 : PipelineState) (q t r : String) (hq : s0.query = some q) (ht : t ≠ "") :
    pineconeRetrieve (Except.error ()) = "Error retrieving information from Pinecone"
  ∧ llamaRetrieve (Except.error ()) = "Error retrieving information from LlamaIndex"
  ∧ pineconeRetrieve (Except.ok none) = "No relevant information found."
  ∧ pineconeRetrieve (Except.ok (some "")) = "No relevant information found."
  ∧ pineconeRetrieve (Except.ok (some t)) = t
  ∧ llamaRetrieve (Except.ok r) = r
  ∧ (runNodes (hrCopilotNodes pc ll model) s0).1.take 5 =
      ["fetch_employee_context", "categorize", "pinecone_query", "llamaindex_query",
        "respond"] := by
  refine ⟨rfl, rfl, rfl, rfl, ?_, rfl, ?_⟩
  · simp [pineconeRetrieve, jsStringOr, ht]
  · rw [runNodes_hrCopilot pc ll model s0 q hq]
    cases model (stateBeforeRespond pc ll s0) with
    | error e => rfl
    | ok r => rfl

/-- C2 witness: a failing Pinecone lookup and a failing LlamaIndex lookup
both yield their error sentinels, and synthesis is still reached. -/
theorem retriever_sentinel_spec_witness :
    (runNodes (hrCopilotNodes (Except.error ()) (Except.error ())
        (fun _ => Except.ok "answer")) ⟨some "hi", none, none, none, none, [], none⟩).1.take 5 =
      ["fetch_employee_context", "categorize", "pinecone_query", "llamaindex_query",
        "respond"] :=
  (retriever_sentinel_spec (Except.error ()) (Except.error ())
    (fun _ => Except.ok "answer") ⟨some "hi", none, none, none, none, [], none⟩
    "hi" "x" "r" rfl (by decide)).2.2.2.2.2.2

/-- C3: when the generative-backend call inside the synthesis step throws,
the error propagates out of the pipeline — the handler answers with the
500 body carrying the underlying error message, the history-append node
never executes, and no executed node changed `conversation_history` from
the caller-supplied input. -/
theorem synthesis_error_propagates (pc : Except Unit (Option String))
    (ll : Except Unit String) (e : String) (req : Request) (q : String)
    (hm : req.method = "POST") (hq : req.query = some q) :
    handler pc ll (fun _ => Except.error e) req =
      (["fetch_employee_context", "categorize", "pinecone_query", "llamaindex_query",
        "respond"],
        ⟨500, some "Internal Server Error", none, none, some e, none, none, none, none⟩)
  ∧ "update_conversation_history" ∉ (handler pc ll (fun _ => Except.error e) req).1
  ∧ (stateBeforeRespond pc ll
      ⟨req.query, none, none, none, req.employee_context, req.conversation_history,
        none⟩).conversation_history = req.conversation_history := by
  have hrun := runNodes_hrCopilot pc ll (fun _ => Except.error e)
    ⟨req.query, none, none, none, req.employee_context, req.conversation_history, none⟩ q hq
  have hhandler : handler pc ll (fun _ => Except.error e) req =
      (["fetch_employee_context", "categorize", "pinecone_query", "llamaindex_query",
        "respond"],
        ⟨500, some "Internal Server Error", none, none, some e, none, none, none, none⟩) := by
    simp only [handler, hm, ne_eq, not_true_eq_false, if_false, ite_false]
    rw [hrun]
  refine ⟨hhandler, ?_, rfl⟩
  rw [hhandler]
  simp

/-- C3 witness: a concrete run whose backend throws "quota exceeded"
surfaces exactly that message in a 500 body. -/
theorem synthesis_error_propagates_witness :
    handler (Except.ok (some "text")) (Except.ok "more text")
        (fun _ => Except.error "quota exceeded")
        ⟨"POST", some "hello", none, [⟨"user", "old"⟩]⟩ =
      (["fetch_employee_context", "categorize", "pinecone_query", "llamaindex_query",
        "respond"],
        ⟨500, some "Internal Server Error", none, none, some "quota exceeded",
          none, none, none, none⟩) :=
  (synthesis_error_propagates (Except.ok (some "text")) (Except.ok "more text")
    "quota exceeded" ⟨"POST", some "hello", none, [⟨"user", "old"⟩]⟩ "hello" rfl rfl).1

/-- C4: `update_conversation_history` returns exactly the input history
with the user entry and then the assistant entry appended — two new
entries, existing entries unchanged — the node itself never fails, and on
every successful run the final state carries exactly that history. -/
theorem history_append_two_entries (h : List Message) (qq rr : String)
    (s : PipelineState) (pc : Except Unit (Option String)) (ll : Except Unit String)
    (synth : PipelineState → String) (s0 : PipelineState) (q : String)
    (hq : s0.query = some q) :
    updateConversationHistory h qq rr = h ++ [⟨"user", qq⟩, ⟨"assistant", rr⟩]
  ∧ (updateConversationHistory h qq rr).length = h.length + 2
  ∧ h <+: updateConversationHistory h qq rr
  ∧ conversationHistoryNode s = Except.ok { s with conversation_history :=
      (updateConversationHistory s.conversation_history (s.query.getD "")
        (s.final_response.getD "")) }
  ∧ (runNodes (hrCopilotNodes pc ll (fun st => Except.ok (synth st))) s0).2 =
      Except.ok { s0 with
        category := some (classifyQuery q),
        pinecone_result := some (pineconeRetrieve pc),
        llamaindex_result := some (llamaRetrieve ll),
        final_response := some (synth (stateBeforeRespond pc ll s0)),
        conversation_history := s0.conversation_history ++
          [⟨"user", q⟩, ⟨"assistant", synth (stateBeforeRespond pc ll s0)⟩] } := by
  refine ⟨rfl, ?_, ⟨[⟨"user", qq⟩, ⟨"assistant", rr⟩], rfl⟩, rfl, ?_⟩
  · simp [updateConversationHistory]
  · rw [runNodes_hrCopilot pc ll (fun st => Except.ok (synth st)) s0 q hq]
    simp [updateConversationHistory]

/-- C4 witness: a concrete successful run appends exactly the user query
and the synthesized answer to the supplied history. -/
theorem history_append_two_entries_witness :
    (runNodes (hrCopilotNodes (Except.ok (some "doc")) (Except.ok "update")
        (fun _ => Except.ok "the answer"))
        ⟨some "my question", none, none, none, none, [⟨"user", "old"⟩], none⟩).2 =
      Except.ok ⟨some "my question", some "GENERAL", some "doc", some "update", none,
        [⟨"user", "old"⟩, ⟨"user", "my question"⟩, ⟨"assistant", "the answer"⟩],
        some "the answer"⟩ := by
  have := (history_append_two_entries [] "" "" ⟨none, none, none, none, none, [], none⟩
    (Except.ok (some "doc")) (Except.ok "update") (fun _ => "the answer")
    ⟨some "my question", none, none, none, none, [⟨"user", "old"⟩], none⟩
    "my question" rfl).2.2.2.2
  rw [this]
  rfl

/-- C5: once the retrieval phase completes, the state entering the
synthesis step holds exactly one retrieval entry per configured retriever,
in the fixed order Pinecone first then LlamaIndex, each entry holding a
string (real text or a sentinel) — for every combination of retriever
outcomes, and the pipeline always reaches the `respond` node. -/
theorem retrieved_fully_populated (pc : Except Unit (Option String))
    (ll : Except Unit String) (model : PipelineState → Except String String)
    (s0 : PipelineState) (q : String) (hq : s0.query = some q) :
    retrievedResults (stateBeforeRespond pc ll s0) =
      [("pinecone_result", some (pineconeRetrieve pc)),
       ("llamaindex_result", some (llamaRetrieve ll))]
  ∧ (retrievedResults (stateBeforeRespond pc ll s0)).length = 2
  ∧ (∀ p ∈ retrievedResults (stateBeforeRespond pc ll s0), p.2.isSome = true)
  ∧ (runNodes (hrCopilotNodes pc ll model) s0).1.take 5 =
      ["fetch_employee_context", "categorize", "pinecone_query", "llamaindex_query",
        "respond"] := by
  refine ⟨rfl, rfl, ?_, ?_⟩
  · intro p hp
    simp only [retrievedResults, stateBeforeRespond, List.mem_cons,
      List.mem_singleton] at hp
    rcases hp with hp | hp | hp
    · subst hp; rfl
    · subst hp; rfl
    · cases hp
  · rw [runNodes_hrCopilot pc ll model s0 q hq]
    cases model (stateBeforeRespond pc ll s0) with
    | error e => rfl
    | ok r => rfl

/-- C5 witness: with a failing Pinecone lookup and a successful LlamaIndex
lookup, both retrieval slots are still populated before synthesis. -/
theorem retrieved_fully_populated_witness :
    retrievedResults (stateBeforeRespond (Except.error ()) (Except.ok "recent update")
        ⟨some "hi", none, none, none, none, [], none⟩) =
      [("pinecone_result", some "Error retrieving information from Pinecone"),
       ("llamaindex_result", some "recent update")] :=
  (retrieved_fully_populated (Except.error ()) (Except.ok "recent update")
    (fun _ => Except.ok "a") ⟨some "hi", none, none, none, none, [], none⟩ "hi" rfl).1

/-- C6 counterexample: a POST request whose body lacks `query` is not
rejected with a 4xx and the pipeline does run — the handler returns a
500 body after the `categorize` node throws on the undefined query. -/
theorem missing_query_counterexample :
    (handler (Except.ok none) (Except.ok "") (fun _ => Except.ok "")
        ⟨"POST", none, none, []⟩).2.status = 500
  ∧ (handler (Except.ok none) (Except.ok "") (fun _ => Except.ok "")
        ⟨"POST", none, none, []⟩).1 = ["fetch_employee_context", "categorize"] := by
  exact ⟨rfl, rfl⟩

/-- C6 (amended): a non-POST request gets an immediate 405 body and the
pipeline never runs, so no retriever and no generative backend is invoked;
a POST request whose body lacks `query`, however, is not rejected up
front — the pipeline starts, its `categorize` node throws on the undefined
query, and the handler returns a 500-equivalent — while still no retriever
node and no synthesis node is ever reached. -/
theorem method_gate_and_missing_query (pc : Except Unit (Option String))
    (ll : Except Unit String) (model : PipelineState → Except String String)
    (req : Request) :
    (req.method ≠ "POST" →
      handler pc ll model req =
        ([], ⟨405, some "Method Not Allowed", none, none, none, none, none, none, none⟩))
  ∧ (req.method = "POST" → req.query = none →
      (handler pc ll model req).1 = ["fetch_employee_context", "categorize"]
    ∧ (handler pc ll model req).2.status = 500
    ∧ "pinecone_query" ∉ (handler pc ll model req).1
    ∧ "llamaindex_query" ∉ (handler pc ll model req).1
    ∧ "respond" ∉ (handler pc ll model req).1) := by
  constructor
  · intro hm
    simp [handler, hm]
  · intro hm hq
    have hrun : handler pc ll model req =
        (["fetch_employee_context", "categorize"],
          ⟨500, some "Internal Server Error", none, none,
            some "TypeError: query is undefined", none, none, none, none⟩) := by
      simp only [handler, hm, ne_eq, not_true_eq_false, if_false, ite_false]
      simp [runNodes, hrCopilotNodes, employeeContextNode, categorizeNode, hq]
    rw [hrun]
    refine ⟨rfl, rfl, ?_, ?_, ?_⟩ <;> decide

/-- C6 witness: a GET request is answered with the 405 body and an empty
node trace. -/
theorem method_gate_and_missing_query_witness :
    handler (Except.ok none) (Except.ok "") (fun _ => Except.ok "")
        ⟨"GET", some "hi", none, []⟩ =
      ([], ⟨405, some "Method Not Allowed", none, none, none, none, none, none, none⟩) :=
  (method_gate_and_missing_query (Except.ok none) (Except.ok "")
    (fun _ => Except.ok "") ⟨"GET", some "hi", none, []⟩).1 (by decide)

/-- C7: on every successful run, an escalation ticket is created — with
priority high, as post-processing after the pipeline — and its id is
attached to the response if and only if `final_response` contains the
escalation marker ("contact hr", case-insensitively); when the marker is
absent the per-invocation ticket system stays empty and no id is
returned. -/
theorem escalation_ticket_iff_marker (pc : Except Unit (Option String))
    (ll : Except Unit String) (synth : PipelineState → String) (now : Nat)
    (payload : AppwritePayload) (q : String) (ctx : EmployeeContext)
    (hq : payload.query = some q) (hctx : payload.employeeContext = some ctx) :
    ((appwriteFunction pc ll (fun st => Except.ok (synth st)) now payload).response.ticketId.isSome = true
      ↔ escalationMarkerPresent (synth (stateBeforeRespondEnhanced pc ll
          ⟨payload.query, none, none, none, payload.employeeContext, [], none⟩)) = true)
  ∧ (escalationMarkerPresent (synth (stateBeforeRespondEnhanced pc ll
        ⟨payload.query, none, none, none, payload.employeeContext, [], none⟩)) = true →
      (appwriteFunction pc ll (fun st => Except.ok (synth st)) now payload).response.ticketId =
        some ("TICKET-" ++ toString now)
    ∧ (appwriteFunction pc ll (fun st => Except.ok (synth st)) now payload).ticketSystem.tickets =
        [("TICKET-" ++ toString now,
          ⟨"TICKET-" ++ toString now, "Query requires human assistance: " ++ q,
            "open", "high", []⟩)])
  ∧ (escalationMarkerPresent (synth (stateBeforeRespondEnhanced pc ll
        ⟨payload.query, none, none, none, payload.employeeContext, [], none⟩)) = false →
      (appwriteFunction pc ll (fun st => Except.ok (synth st)) now payload).response.ticketId = none
    ∧ (appwriteFunction pc ll (fun st => Except.ok (synth st)) now payload).ticketSystem =
        ⟨[]⟩) := by
  obtain ⟨pq, pec⟩ := payload
  have hq' : pq = some q := hq
  have hctx' : pec = some ctx := hctx
  subst hq'
  subst hctx'
  have hrun := runNodes_enhanced pc ll (fun st => Except.ok (synth st))
    ⟨some q, none, none, none, some ctx, [], none⟩ q ctx rfl rfl
  by_cases hmark : escalationMarkerPresent (synth (stateBeforeRespondEnhanced pc ll
      ⟨some q, none, none, none, some ctx, [], none⟩)) = true
  · have happ : appwriteFunction pc ll (fun st => Except.ok (synth st)) now ⟨some q, some ctx⟩ =
        ⟨["fetch_employee_context", "categorize", "pinecone_query", "llamaindex_query",
          "respond", "update_conversation_history"],
          ⟨200, some (synth (stateBeforeRespondEnhanced pc ll
              ⟨some q, none, none, none, some ctx, [], none⟩)),
            some (classifyQuerySimplified q), some (pineconeRetrieve pc),
            some (llamaRetrieve ll), some ctx,
            some (updateConversationHistory [] q (synth (stateBeforeRespondEnhanced pc ll
              ⟨some q, none, none, none, some ctx, [], none⟩))),
            some ("TICKET-" ++ toString now), none, none⟩,
          ⟨[("TICKET-" ++ toString now,
            ⟨"TICKET-" ++ toString now, "Query requires human assistance: " ++ q,
              "open", "high", []⟩)]⟩⟩ := by
      simp only [appwriteFunction]
      rw [hrun]
      simp [hmark, createTicket, mapSet]
    rw [happ]
    simp [hmark]
  · rw [Bool.not_eq_true] at hmark
    have happ : appwriteFunction pc ll (fun st => Except.ok (synth st)) now ⟨some q, some ctx⟩ =
        ⟨["fetch_employee_context", "categorize", "pinecone_query", "llamaindex_query",
          "respond", "update_conversation_history"],
          ⟨200, some (synth (stateBeforeRespondEnhanced pc ll
              ⟨some q, none, none, none, some ctx, [], none⟩)),
            some (classifyQuerySimplified q), some (pineconeRetrieve pc),
            some (llamaRetrieve ll), some ctx,
            some (updateConversationHistory [] q (synth (stateBeforeRespondEnhanced pc ll
              ⟨some q, none, none, none, some ctx, [], none⟩))),
            none, none, none⟩,
          ⟨[]⟩⟩ := by
      simp only [appwriteFunction]
      rw [hrun]
      simp [hmark]
    rw [happ]
    simp [hmark]

/-- C7 witness: a synthesized answer that suggests to "please contact HR"
produces a stored high-priority ticket whose id is returned. -/
theorem escalation_ticket_iff_marker_witness :
    (appwriteFunction (Except.ok none) (Except.ok "")
        (fun _ => Except.ok "Insufficient data, please Contact HR for details.") 42
        ⟨some "asdkjasd", some ⟨"eng", "dev", "2y"⟩⟩).response.ticketId =
      some "TICKET-42" :=
  ((escalation_ticket_iff_marker (Except.ok none) (Except.ok "")
    (fun _ => "Insufficient data, please Contact HR for details.") 42
    ⟨some "asdkjasd", some ⟨"eng", "dev", "2y"⟩⟩ "asdkjasd" ⟨"eng", "dev", "2y"⟩
    rfl rfl).2.1 (by decide)).1

/-- C8 counterexample: a concrete successful run through the primary
handler returns a body that carries only `final_response` and `category` —
the retrieved results and the updated conversation history are absent from
the success response, so the output is a strict subset of the claimed
field set. -/
theorem primary_success_response_subset_counterexample :
    (handler (Except.ok (some "20 days annual leave")) (Except.ok "no recent changes")
        (fun _ => Except.ok "You get 20 days.") ⟨"POST", some "leave?", none, []⟩).2 =
      ⟨200, some "Success", some "You get 20 days.", some "LEAVE", none,
        none, none, none, none⟩ := by
  rfl

/-- C8 (amended): the enhanced `appwriteFunction` success response exposes
the synthesized answer (as `result`), the category, both retrieved
results, the updated conversation history, the employee context, and a
`ticketId` exactly when escalation occurred; the primary handler's success
response instead exposes only `final_response` and `category`. -/
theorem success_response_fields (pc : Except Unit (Option String))
    (ll : Except Unit String) (synth : PipelineState → String) (now : Nat)
    (payload : AppwritePayload) (q : String) (ctx : EmployeeContext)
    (hq : payload.query = some q) (hctx : payload.employeeContext = some ctx) :
    (appwriteFunction pc ll (fun st => Except.ok (synth st)) now payload).response.status = 200
  ∧ (appwriteFunction pc ll (fun st => Except.ok (synth st)) now payload).response.result =
      some (synth (stateBeforeRespondEnhanced pc ll
        ⟨payload.query, none, none, none, payload.employeeContext, [], none⟩))
  ∧ (appwriteFunction pc ll (fun st => Except.ok (synth st)) now payload).response.category =
      some (classifyQuerySimplified q)
  ∧ (appwriteFunction pc ll (fun st => Except.ok (synth st)) now payload).response.pinecone_result =
      some (pineconeRetrieve pc)
  ∧ (appwriteFunction pc ll (fun st => Except.ok (synth st)) now payload).response.llamaindex_result =
      some (llamaRetrieve ll)
  ∧ (appwriteFunction pc ll (fun st => Except.ok (synth st)) now payload).response.employee_context =
      some ctx
  ∧ (appwriteFunction pc ll (fun st => Except.ok (synth st)) now payload).response.conversation_history =
      some [⟨"user", q⟩, ⟨"assistant", synth (stateBeforeRespondEnhanced pc ll
        ⟨payload.query, none, none, none, payload.employeeContext, [], none⟩)⟩]
  ∧ ((appwriteFunction pc ll (fun st => Except.ok (synth st)) now payload).response.ticketId.isSome = true
      ↔ escalationMarkerPresent (synth (stateBeforeRespondEnhanced pc ll
          ⟨payload.query, none, none, none, payload.employeeContext, [], none⟩)) = true) := by
  obtain ⟨pq, pec⟩ := payload
  have hq' : pq = some q := hq
  have hctx' : pec = some ctx := hctx
  subst hq'
  subst hctx'
  have hrun := runNodes_enhanced pc ll (fun st => Except.ok (synth st))
    ⟨some q, none, none, none, some ctx, [], none⟩ q ctx rfl rfl
  have hred : appwriteFunction pc ll (fun st => Except.ok (synth st)) now ⟨some q, some ctx⟩ =
      (if escalationMarkerPresent (synth (stateBeforeRespondEnhanced pc ll
          ⟨some q, none, none, none, some ctx, [], none⟩)) = true then
        ⟨["fetch_employee_context", "categorize", "pinecone_query", "llamaindex_query",
          "respond", "update_conversation_history"],
          ⟨200, some (synth (stateBeforeRespondEnhanced pc ll
              ⟨some q, none, none, none, some ctx, [], none⟩)),
            some (classifyQuerySimplified q), some (pineconeRetrieve pc),
            some (llamaRetrieve ll), some ctx,
            some [⟨"user", q⟩, ⟨"assistant", synth (stateBeforeRespondEnhanced pc ll
              ⟨some q, none, none, none, some ctx, [], none⟩)⟩],
            some ("TICKET-" ++ toString now), none, none⟩,
          ⟨[("TICKET-" ++ toString now,
            ⟨"TICKET-" ++ toString now, "Query requires human assistance: " ++ q,
              "open", "high", []⟩)]⟩⟩
      else
        ⟨["fetch_employee_context", "categorize", "pinecone_query", "llamaindex_query",
          "respond", "update_conversation_history"],
          ⟨200, some (synth (stateBeforeRespondEnhanced pc ll
              ⟨some q, none, none, none, some ctx, [], none⟩)),
            some (classifyQuerySimplified q), some (pineconeRetrieve pc),
            some (llamaRetrieve ll), some ctx,
            some [⟨"user", q⟩, ⟨"assistant", synth (stateBeforeRespondEnhanced pc ll
              ⟨some q, none, none, none, some ctx, [], none⟩)⟩],
            none, none, none⟩,
          ⟨[]⟩⟩) := by
    simp only [appwriteFunction]
    rw [hrun]
    by_cases hmark : escalationMarkerPresent (synth (stateBeforeRespondEnhanced pc ll
        ⟨some q, none, none, none, some ctx, [], none⟩)) = true
    · simp [hmark, createTicket, mapSet, updateConversationHistory]
    · rw [Bool.not_eq_true] at hmark
      simp [hmark, updateConversationHistory]
  rw [hred]
  by_cases hmark : escalationMarkerPresent (synth (stateBeforeRespondEnhanced pc ll
      ⟨some q, none, none, none, some ctx, [], none⟩)) = true
  · simp [hmark]
  · rw [Bool.not_eq_true] at hmark
    simp [hmark]

/-- C8 witness: a concrete successful enhanced run exposes the full field
set, here with no escalation marker and hence no ticket id. -/
theorem success_response_fields_witness :
    (appwriteFunction (Except.ok (some "20 days annual leave")) (Except.ok "no changes")
        (fun _ => Except.ok "You get 20 days.") 7
        ⟨some "leave?", some ⟨"eng", "dev", "2y"⟩⟩).response.conversation_history =
      some [⟨"user", "leave?"⟩, ⟨"assistant", "You get 20 days."⟩] :=
  (success_response_fields (Except.ok (some "20 days annual leave")) (Except.ok "no changes")
    (fun _ => "You get 20 days.") 7 ⟨some "leave?", some ⟨"eng", "dev", "2y"⟩⟩
    "leave?" ⟨"eng", "dev", "2y"⟩ rfl rfl).2.2.2.2.2.2.1

/-- C9 counterexample: the enhanced variant's context-carrier step does not
succeed when the employee context is absent — reading `.department` of the
undefined context throws, so the step errors on a concrete state with no
context. -/
theorem enhanced_context_absent_counterexample :
    employeeContextNodeEnhanced ⟨some "hi", none, none, none, none, [], none⟩ =
      Except.error "TypeError: employee_context is undefined" := by
  rfl

/-- C9 (amended): the caller-supplied employee context is passed through
the pipeline unchanged — the primary context-carrier step returns the state
untouched whether the context is present or absent, no later step of a
successful primary run alters the context, and the enhanced variant's
context step also reproduces the context exactly when it is present — but
the enhanced step throws when the context is absent. -/
theorem employee_context_passthrough (s t u : PipelineState) (ctx : EmployeeContext)
    (ht : t.employee_context = some ctx) (hu : u.employee_context = none)
    (pc : Except Unit (Option String)) (ll : Except Unit String)
    (model : PipelineState → Except String String) (s0 sf : PipelineState)
    (hrun : (runNodes (hrCopilotNodes pc ll model) s0).2 = Except.ok sf) :
    employeeContextNode s = Except.ok s
  ∧ employeeContextNodeEnhanced t = Except.ok t
  ∧ employeeContextNodeEnhanced u =
      Except.error "TypeError: employee_context is undefined"
  ∧ sf.employee_context = s0.employee_context := by
  refine ⟨?_, ?_, ?_, ?_⟩
  · cases s
    rfl
  · obtain ⟨tq, tc, tp, tl, tec, tch, tfr⟩ := t
    simp only [PipelineState.mk.injEq] at ht
    subst ht
    rfl
  · obtain ⟨uq, uc, up, ul, uec, uch, ufr⟩ := u
    simp only [PipelineState.mk.injEq] at hu
    subst hu
    rfl
  · cases hq : s0.query with
    | none =>
      obtain ⟨oq, cat, pr, lr, ec, ch, fr⟩ := s0
      simp only [PipelineState.mk.injEq] at hq
      subst hq
      simp only [runNodes, hrCopilotNodes, employeeContextNode, categorizeNode] at hrun
      cases hrun
    | some q =>
      rw [runNodes_hrCopilot pc ll model s0 q hq] at hrun
      cases hmodel : model (stateBeforeRespond pc ll s0) with
      | error e =>
        rw [hmodel] at hrun
        cases hrun
      | ok r =>
        rw [hmodel] at hrun
        simp only [Except.ok.injEq] at hrun
        subst hrun
        rfl

/-- C9 witness: the primary context step passes a concrete present context
through unchanged. -/
theorem employee_context_passthrough_witness :
    employeeContextNode
        ⟨some "hi", none, none, none, some ⟨"eng", "dev", "2y"⟩, [], none⟩ =
      Except.ok ⟨some "hi", none, none, none, some ⟨"eng", "dev", "2y"⟩, [], none⟩ :=
  (employee_context_passthrough
    ⟨some "hi", none, none, none, some ⟨"eng", "dev", "2y"⟩, [], none⟩
    ⟨some "hi", none, none, none, some ⟨"eng", "dev", "2y"⟩, [], none⟩
    ⟨some "hi", none, none, none, none, [], none⟩ ⟨"eng", "dev", "2y"⟩ rfl rfl
    (Except.ok none) (Except.ok "") (fun _ => Except.ok "a")
    ⟨some "hi", none, none, none, none, [], none⟩
    ⟨some "hi", some "GENERAL", some "No relevant information found.", some "", none,
      [⟨"user", "hi"⟩, ⟨"assistant", "a"⟩], some "a"⟩ rfl).1

/-- C10: `createTicket` stores the new ticket with status `open`, an empty
updates list, and the id ``TICKET-`` followed by the timestamp, and returns
exactly the id under which the ticket is stored — so `getTicketStatus` of a
just-created id yields `open`, while `getTicketStatus` of any id not in the
store (before or after the creation, for a different id) yields
`not found`. -/
theorem ticket_system_create_invariants (ts : TicketSystem) (now : Nat)
    (d p idN : String) (hN : mapGet ts.tickets idN = none)
    (hne : idN ≠ "TICKET-" ++ toString now) :
    (createTicket ts now d p).1 = "TICKET-" ++ toString now
  ∧ mapGet (createTicket ts now d p).2.tickets (createTicket ts now d p).1 =
      some ⟨"TICKET-" ++ toString now, d, "open", p, []⟩
  ∧ getTicketStatus (createTicket ts now d p).2 (createTicket ts now d p).1 = "open"
  ∧ getTicketStatus ts idN = "not found"
  ∧ getTicketStatus (createTicket ts now d p).2 idN = "not found" := by
  have hget : mapGet (createTicket ts now d p).2.tickets (createTicket ts now d p).1 =
      some ⟨"TICKET-" ++ toString now, d, "open", p, []⟩ :=
    mapGet_mapSet_self ts.tickets ("TICKET-" ++ toString now) _
  refine ⟨rfl, hget, ?_, ?_, ?_⟩
  · simp [getTicketStatus, hget, jsStringOr]
  · simp [getTicketStatus, hN, jsStringOr]
  · have : mapGet (createTicket ts now d p).2.tickets idN = none := by
      rw [show (createTicket ts now d p).2.tickets =
        mapSet ts.tickets ("TICKET-" ++ toString now)
          ⟨"TICKET-" ++ toString now, d, "open", p, []⟩ from rfl]
      rw [mapGet_mapSet_ne ts.tickets ("TICKET-" ++ toString now) idN _ hne]
      exact hN
    simp [getTicketStatus, this, jsStringOr]

/-- C10 witness: creating a ticket in an empty system stores it as open
under `TICKET-42`, while an unknown id reports `not found`. -/
theorem ticket_system_create_invariants_witness :
    getTicketStatus (createTicket ⟨[]⟩ 42 "help me" "high").2
        (createTicket ⟨[]⟩ 42 "help me" "high").1 = "open"
  ∧ getTicketStatus (createTicket ⟨[]⟩ 42 "help me" "high").2 "TICKET-7" = "not found" :=
  ⟨(ticket_system_create_invariants ⟨[]⟩ 42 "help me" "high" "TICKET-7" rfl
      (by decide)).2.2.1,
    (ticket_system_create_invariants ⟨[]⟩ 42 "help me" "high" "TICKET-7" rfl
      (by decide)).2.2.2.2⟩

end HRCopilot
